import Mathlib

/-!
Shallow embedding of the resume-analyzer backend (src/server.js) for
verification of the specification's claims.  Pure computations of the
handlers (input validation, prompt rendering, JSON-span extraction,
parsing, required-field checks, response construction) are translated
into executable Lean definitions; the two external collaborators (the
LLM provider and the database) are modelled by explicit outcome
parameters, since their behaviour is I/O the code merely consumes.
-/

/-- JSON values as produced by JSON.parse.  Numeric literals are modelled
as integers: no behaviour of the server distinguishes fractional values,
and every numeral appearing in the claims is integral. -/
inductive Json where
  | null : Json
  | bool : Bool → Json
  | num : Int → Json
  | str : String → Json
  | arr : List Json → Json
  | obj : List (String × Json) → Json
deriving Repr

/-- JavaScript truthiness of a JSON value (null, 0, "" and false are
falsy; objects and arrays are always truthy). -/
def truthy : Json → Bool
  | Json.null => false
  | Json.bool b => b
  | Json.num n => n != 0
  | Json.str s => s != ""
  | Json.arr _ => true
  | Json.obj _ => true

/-- Property lookup on a parsed object.  JSON.parse keeps the last of
duplicate keys, so the scan runs over the reversed field list.  Lookup on
a non-object or a missing key yields none (undefined). -/
def getField (j : Json) (key : String) : Option Json :=
  match j with
  | Json.obj fields => (fields.reverse.find? (fun kv => kv.fst == key)).map (fun kv => kv.snd)
  | _ => none

/-- Truthiness of a property access such as analysisData.overallScore:
a missing property is undefined, hence falsy. -/
def truthyField (j : Json) (key : String) : Bool :=
  match getField j key with
  | some v => truthy v
  | none => false

/-- Truthiness of an optional request-body string: an absent field is
undefined and the empty string is falsy. -/
def truthyStr : Option String → Bool
  | none => false
  | some s => s != ""

/-- White space stripped by String.prototype.trim (the ASCII part; the
further Unicode space code points JavaScript also strips play no role in
any claim). -/
def jsWhitespace (c : Char) : Bool :=
  [' ', '\t', '\n', '\x0b', '\x0c', '\x0d'].contains c

/-- Embedding of String.prototype.trim. -/
def jsTrim (s : String) : String :=
  String.mk (((s.data.dropWhile jsWhitespace).reverse.dropWhile jsWhitespace).reverse)

/-- Does the list begin with the given pattern? -/
def listStartsWith : List Char → List Char → Bool
  | _, [] => true
  | [], _ :: _ => false
  | c :: cs, p :: ps => c == p && listStartsWith cs ps

/-- Index of the first occurrence of a pattern in a list
(String.prototype.indexOf). -/
def findSub : List Char → List Char → Option Nat
  | [], pat => if listStartsWith [] pat then some 0 else none
  | c :: t, pat =>
    if listStartsWith (c :: t) pat then some 0
    else (findSub t pat).map (fun n => n + 1)

/-- Substring containment (String.prototype.includes). -/
def includesSub (s pat : String) : Bool :=
  (findSub s.data pat.data).isSome

/-- Index of the last occurrence of a single character. -/
def lastIdxOf (s : List Char) (c : Char) : Option Nat :=
  match findSub s.reverse [c] with
  | none => none
  | some i => some (s.length - 1 - i)

/-- Expansion of dollar patterns in the replacement string of
String.prototype.replace with a string search pattern (no capture
groups): a doubled dollar inserts a dollar, dollar-ampersand inserts the
matched text, a dollar followed by the backquote character inserts the
text before the match, dollar-quote inserts the text after the match;
anything else after a dollar is kept literally. -/
def expandDollar (bef mtd aft : List Char) : List Char → List Char
  | [] => []
  | c :: rest =>
    if c == '$' then
      match rest with
      | [] => ['$']
      | d :: rest2 =>
        if d == '$' then '$' :: expandDollar bef mtd aft rest2
        else if d == '&' then mtd ++ expandDollar bef mtd aft rest2
        else if d == '\x60' then bef ++ expandDollar bef mtd aft rest2
        else if d == '\x27' then aft ++ expandDollar bef mtd aft rest2
        else '$' :: d :: expandDollar bef mtd aft rest2
    else c :: expandDollar bef mtd aft rest

/-- Embedding of String.prototype.replace with a string search pattern:
only the first occurrence is replaced, dollar patterns in the
replacement are expanded, and the string is returned unchanged when the
pattern does not occur. -/
def jsReplace (s pat repl : String) : String :=
  match findSub s.data pat.data with
  | none => s
  | some i =>
    let bef := s.data.take i
    let aft := s.data.drop (i + pat.data.length)
    String.mk (bef ++ expandDollar bef pat.data aft repl.data ++ aft)

/-- Embedding of matching aiResponse against the greedy regex of
src/server.js lines 166 and 263 (open brace, any characters, close
brace): the match, when it exists, is the span from the first open brace
to the last close brace, and it exists exactly when that last close
brace lies strictly after that first open brace. -/
def jsonSpan (s : String) : Option String :=
  match findSub s.data ['\x7b'], lastIdxOf s.data '\x7d' with
  | some i, some j =>
    if i < j then some (String.mk ((s.data.drop i).take (j + 1 - i))) else none
  | _, _ => none

/-- White space skipped by the JSON grammar. -/
def jsonWs (c : Char) : Bool :=
  [' ', '\t', '\n', '\x0d'].contains c

/-- Value of a hexadecimal digit. -/
def hexVal (c : Char) : Option Nat :=
  if c.isDigit then some (c.toNat - 48)
  else
    let l := c.toLower
    if 'a' ≤ l && l ≤ 'f' then some (l.toNat - 87) else none

/-- Single-character JSON string escapes. -/
def escTable : List (Char × Char) :=
  [('"', '"'), ('\\', '\\'), ('/', '/'), ('b', '\x08'), ('f', '\x0c'),
   ('n', '\n'), ('r', '\x0d'), ('t', '\t')]

/-- Single-character JSON string escapes, by table lookup. -/
def escChar (e : Char) : Option Char :=
  (escTable.find? (fun pr => pr.fst == e)).map (fun pr => pr.snd)

/-- Body of a JSON string after the opening quote: returns the decoded
characters and the input following the closing quote.  The fuel argument
bounds recursion depth; callers supply at least the input length. -/
def parseStrBody (fuel : Nat) (s : List Char) : Option (List Char × List Char) :=
  match fuel, s with
  | 0, _ => none
  | _, [] => none
  | f + 1, c :: rest =>
    if c == '"' then some ([], rest)
    else if c == '\\' then
      match rest with
      | [] => none
      | e :: rest2 =>
        if e == 'u' then
          match rest2 with
          | h1 :: h2 :: h3 :: h4 :: rest3 =>
            match hexVal h1, hexVal h2, hexVal h3, hexVal h4 with
            | some a, some b, some c3, some d =>
              (parseStrBody f rest3).map
                (fun p => (Char.ofNat (((a * 16 + b) * 16 + c3) * 16 + d) :: p.fst, p.snd))
            | _, _, _, _ => none
          | _ => none
        else
          match escChar e with
          | some ec => (parseStrBody f rest2).map (fun p => (ec :: p.fst, p.snd))
          | none => none
    else (parseStrBody f rest).map (fun p => (c :: p.fst, p.snd))

/-- Digit run converted to a natural number, most significant first. -/
def digitsAux (acc : Nat) : List Char → Nat
  | [] => acc
  | d :: ds => digitsAux (acc * 10 + (d.toNat - 48)) ds

/-- Digit run converted to a natural number. -/
def digitsToNat (ds : List Char) : Nat :=
  digitsAux 0 ds

mutual

/-- Recursive-descent JSON parser (the JSON.parse collaborator),
restricted to the integral numeric literals that are the only numerals
the claims exercise.  Returns the value and the unconsumed input. -/
def parseJsonVal (fuel : Nat) (s : List Char) : Option (Json × List Char) :=
  match fuel with
  | 0 => none
  | f + 1 =>
    match List.dropWhile jsonWs s with
    | [] => none
    | c :: rest =>
      if c == '\x7b' then
        match List.dropWhile jsonWs rest with
        | '\x7d' :: rest2 => some (Json.obj [], rest2)
        | _ => (parseMembers f rest).map (fun p => (Json.obj p.fst, p.snd))
      else if c == '[' then
        match List.dropWhile jsonWs rest with
        | ']' :: rest2 => some (Json.arr [], rest2)
        | _ => (parseItems f rest).map (fun p => (Json.arr p.fst, p.snd))
      else if c == '"' then
        (parseStrBody (rest.length + 1) rest).map (fun p => (Json.str (String.mk p.fst), p.snd))
      else if c == 't' then
        match rest with
        | 'r' :: 'u' :: 'e' :: rest2 => some (Json.bool true, rest2)
        | _ => none
      else if c == 'f' then
        match rest with
        | 'a' :: 'l' :: 's' :: 'e' :: rest2 => some (Json.bool false, rest2)
        | _ => none
      else if c == 'n' then
        match rest with
        | 'u' :: 'l' :: 'l' :: rest2 => some (Json.null, rest2)
        | _ => none
      else if c == '-' then
        match rest.takeWhile Char.isDigit, rest.dropWhile Char.isDigit with
        | [], _ => none
        | ds, rest2 => some (Json.num (-(Int.ofNat (digitsToNat ds))), rest2)
      else if c.isDigit then
        match (c :: rest).takeWhile Char.isDigit, (c :: rest).dropWhile Char.isDigit with
        | [], _ => none
        | ds, rest2 => some (Json.num (Int.ofNat (digitsToNat ds)), rest2)
      else none

/-- Members of a JSON object after the opening brace (nonempty case). -/
def parseMembers (fuel : Nat) (s : List Char) : Option (List (String × Json) × List Char) :=
  match fuel with
  | 0 => none
  | f + 1 =>
    match List.dropWhile jsonWs s with
    | '"' :: rest =>
      match parseStrBody (rest.length + 1) rest with
      | none => none
      | some (key, rest2) =>
        match List.dropWhile jsonWs rest2 with
        | ':' :: rest3 =>
          match parseJsonVal f rest3 with
          | none => none
          | some (v, rest4) =>
            match List.dropWhile jsonWs rest4 with
            | ',' :: rest5 =>
              (parseMembers f rest5).map
                (fun p => ((String.mk key, v) :: p.fst, p.snd))
            | '\x7d' :: rest5 => some ([(String.mk key, v)], rest5)
            | _ => none
        | _ => none
    | _ => none

/-- Items of a JSON array after the opening bracket (nonempty case). -/
def parseItems (fuel : Nat) (s : List Char) : Option (List Json × List Char) :=
  match fuel with
  | 0 => none
  | f + 1 =>
    match parseJsonVal f s with
    | none => none
    | some (v, rest) =>
      match List.dropWhile jsonWs rest with
      | ',' :: rest2 => (parseItems f rest2).map (fun p => (v :: p.fst, p.snd))
      | ']' :: rest2 => some ([v], rest2)
      | _ => none

end

/-- JSON.parse on a whole string: the parsed value when the entire input
(up to trailing white space) is consumed, none on any parse failure. -/
def parseJson (s : String) : Option Json :=
  match parseJsonVal (s.length + 1) s.data with
  | some (v, rest) => if List.dropWhile jsonWs rest == [] then some v else none
  | none => none

/-- Outcome of one provider invocation inside the try block of callAI:
the raw reply text, or a thrown error carried by its message. -/
inductive ProviderOutcome where
  | reply : String → ProviderOutcome
  | thrown : String → ProviderOutcome
deriving Repr, DecidableEq

/-- The re-classified credential error message (src/server.js line 126). -/
def invalidKeyMessage : String := "Invalid API key. Please check your .env file."

/-- Embedding of the catch clause of callAI (src/server.js lines
122-130): an error whose message is truthy and holds "API key" is
rethrown as the invalid-credential error; any other error is rethrown
unchanged; a reply passes through. -/
def callAI (outcome : ProviderOutcome) : ProviderOutcome :=
  match outcome with
  | ProviderOutcome.reply t => ProviderOutcome.reply t
  | ProviderOutcome.thrown msg =>
    if msg != "" && includesSub msg "API key" then ProviderOutcome.thrown invalidKeyMessage
    else ProviderOutcome.thrown msg

/-- HTTP-visible outcome of a request: a success body carries status 200
with success true and the data, a failure body carries its status with
success false and the error value (res.status(s).json on src/server.js;
the error value is a JSON value because the analyze handler forwards
analysisData.error verbatim). -/
inductive ApiResponse where
  | success : Json → ApiResponse
  | failure : Nat → Json → ApiResponse
deriving Repr

/-- Outcome of submission.save(): models the database collaborator. -/
def dbSave (fails : Bool) : Except String Unit :=
  if fails then Except.error "Database save error" else Except.ok ()

def msgMissingAnalyze : String := "Missing resumeText or prompt in request body"

def msgShortAnalyze : String := "Resume text is too short (minimum 50 characters)"

def msgMissingMatch : String := "Missing required fields: resumeText, jobDescription, or prompt"

def msgShortResumeMatch : String := "Resume text is too short"

def msgShortJobMatch : String := "Job description is too short"

def msgNoJson : String := "No valid JSON found in AI response"

def msgInvalidAnalysis : String := "Invalid analysis format from AI"

def msgInvalidMatch : String := "Invalid match format from AI"

/-- Stand-in for the message of the SyntaxError thrown by JSON.parse on
a malformed span; no claim inspects its wording. -/
def msgMalformedJson : String := "Unexpected token in JSON"

def fallbackAnalyzeMsg : String := "Failed to analyze resume. Please try again."

def fallbackMatchMsg : String := "Failed to match resume with job. Please try again."

/-- The document-text placeholder of the analyze endpoint. -/
def documentMarker : String := "\x7b\x7bDOCUMENT_TEXT\x7d\x7d"

/-- The resume-text placeholder of the match endpoint. -/
def resumeMarker : String := "\x7b\x7bRESUME_TEXT\x7d\x7d"

/-- The job-description placeholder of the match endpoint. -/
def jobMarker : String := "\x7b\x7bJOB_DESCRIPTION\x7d\x7d"

/-- Prompt rendering of the analyze endpoint (src/server.js line 160):
prompt.replace with the document marker and the resume text. -/
def renderAnalyzePrompt (tmpl resumeText : String) : String :=
  jsReplace tmpl documentMarker resumeText

/-- Prompt rendering of the match endpoint (src/server.js lines 255-257):
two chained replace calls. -/
def renderMatchPrompt (tmpl resumeText jobDescription : String) : String :=
  jsReplace (jsReplace tmpl resumeMarker resumeText) jobMarker jobDescription

/-- Response construction of the analyze handler after the provider
reply arrived (src/server.js lines 166-209): span extraction, JSON
parsing, the required-field/error checks, the best-effort save whose
failure is caught and discarded, and the final response. -/
def analyzeRespond (aiResponse : String) (dbFails : Bool) : ApiResponse :=
  match jsonSpan aiResponse with
  | none => ApiResponse.failure 500 (Json.str msgNoJson)
  | some span =>
    match parseJson span with
    | none => ApiResponse.failure 500 (Json.str msgMalformedJson)
    | some analysisData =>
      if !truthyField analysisData "overallScore" && !truthyField analysisData "error" then
        ApiResponse.failure 500 (Json.str msgInvalidAnalysis)
      else if truthyField analysisData "error" then
        ApiResponse.failure 400 ((getField analysisData "error").getD Json.null)
      else
        match dbSave dbFails with
        | Except.ok _ => ApiResponse.success analysisData
        | Except.error _ => ApiResponse.success analysisData

/-- Embedding of the analyze-resume handler (src/server.js lines
137-219).  The provider is a function from the rendered user prompt to
that call's outcome; dbFails tells whether submission.save() throws.
The Bool of the result records whether the provider was invoked. -/
def analyzeResume (resumeText prompt : Option String)
    (provider : String → ProviderOutcome) (dbFails : Bool) : ApiResponse × Bool :=
  if !truthyStr resumeText || !truthyStr prompt then
    (ApiResponse.failure 400 (Json.str msgMissingAnalyze), false)
  else if (jsTrim (resumeText.getD "")).length < 50 then
    (ApiResponse.failure 400 (Json.str msgShortAnalyze), false)
  else
    match callAI (provider (renderAnalyzePrompt (prompt.getD "") (resumeText.getD ""))) with
    | ProviderOutcome.thrown m =>
      (ApiResponse.failure 500 (Json.str (if m != "" then m else fallbackAnalyzeMsg)), true)
    | ProviderOutcome.reply aiResponse => (analyzeRespond aiResponse dbFails, true)

/-- Response construction of the match handler after the provider reply
arrived (src/server.js lines 263-300).  Unlike the analyze handler it
checks only matchPercentage and has no branch on an error field. -/
def matchRespond (aiResponse : String) (dbFails : Bool) : ApiResponse :=
  match jsonSpan aiResponse with
  | none => ApiResponse.failure 500 (Json.str msgNoJson)
  | some span =>
    match parseJson span with
    | none => ApiResponse.failure 500 (Json.str msgMalformedJson)
    | some matchData =>
      if !truthyField matchData "matchPercentage" then
        ApiResponse.failure 500 (Json.str msgInvalidMatch)
      else
        match dbSave dbFails with
        | Except.ok _ => ApiResponse.success matchData
        | Except.error _ => ApiResponse.success matchData

/-- Embedding of the match-job handler (src/server.js lines 225-310). -/
def matchJob (resumeText jobDescription prompt : Option String)
    (provider : String → ProviderOutcome) (dbFails : Bool) : ApiResponse × Bool :=
  if !truthyStr resumeText || !truthyStr jobDescription || !truthyStr prompt then
    (ApiResponse.failure 400 (Json.str msgMissingMatch), false)
  else if (jsTrim (resumeText.getD "")).length < 50 then
    (ApiResponse.failure 400 (Json.str msgShortResumeMatch), false)
  else if (jsTrim (jobDescription.getD "")).length < 50 then
    (ApiResponse.failure 400 (Json.str msgShortJobMatch), false)
  else
    match callAI (provider (renderMatchPrompt (prompt.getD "")
        (resumeText.getD "") (jobDescription.getD ""))) with
    | ProviderOutcome.thrown m =>
      (ApiResponse.failure 500 (Json.str (if m != "" then m else fallbackMatchMsg)), true)
    | ProviderOutcome.reply aiResponse => (matchRespond aiResponse dbFails, true)

/-- The body of the health response. -/
structure HealthResponse where
  status : String
  provider : String
  database : String
  message : String
deriving Repr, DecidableEq

/-- Embedding of the health endpoint (src/server.js lines 444-453):
readyState is mongoose.connection.readyState. -/
def healthCheck (aiProvider : String) (readyState : Nat) : HealthResponse :=
  HealthResponse.mk "ok" aiProvider
    (if readyState == 1 then "connected" else "disconnected")
    "Resume Optimizer API is running"


/-! ## Auxiliary facts about the string primitives -/

theorem listStartsWith_self_append (p t : List Char) : listStartsWith (p ++ t) p = true := by
  induction p with
  | nil => cases t <;> rfl
  | cons c cs ih => simp [listStartsWith, ih]

theorem listStartsWith_exists {s p : List Char} (h : listStartsWith s p = true) :
    ∃ t, s = p ++ t := by
  induction p generalizing s with
  | nil => exact ⟨s, rfl⟩
  | cons c cs ih =>
    cases s with
    | nil => simp [listStartsWith] at h
    | cons d t =>
      have h2 := h
      simp only [listStartsWith, Bool.and_eq_true, beq_iff_eq] at h2
      obtain ⟨rfl, h3⟩ := h2
      obtain ⟨u, rfl⟩ := ih h3
      exact ⟨u, rfl⟩

theorem findSub_isSome_of_startsWith {s p : List Char} (h : listStartsWith s p = true) :
    (findSub s p).isSome = true := by
  cases s with
  | nil => rw [findSub, if_pos h]; rfl
  | cons c t => rw [findSub, if_pos h]; rfl

theorem findSub_isSome_iff (s p : List Char) :
    (findSub s p).isSome = true ↔ ∃ a b, s = a ++ p ++ b := by
  constructor
  · intro h
    induction s with
    | nil =>
      rw [findSub] at h
      by_cases hs : listStartsWith [] p = true
      · obtain ⟨t, ht⟩ := listStartsWith_exists hs
        exact ⟨[], t, ht⟩
      · rw [if_neg hs] at h
        exact Bool.noConfusion h
    | cons c t ih =>
      rw [findSub] at h
      by_cases hs : listStartsWith (c :: t) p = true
      · obtain ⟨u, hu⟩ := listStartsWith_exists hs
        exact ⟨[], u, hu⟩
      · rw [if_neg hs, Option.isSome_map'] at h
        obtain ⟨a, b, hab⟩ := ih h
        exact ⟨c :: a, b, by rw [hab]; rfl⟩
  · rintro ⟨a, b, rfl⟩
    induction a with
    | nil =>
      exact findSub_isSome_of_startsWith (by simpa using listStartsWith_self_append p b)
    | cons c a' ih =>
      show (findSub (c :: (a' ++ p ++ b)) p).isSome = true
      rw [findSub]
      by_cases hs : listStartsWith (c :: (a' ++ p ++ b)) p = true
      · rw [if_pos hs]; rfl
      · rw [if_neg hs, Option.isSome_map']
        exact ih

theorem not_occurs_of_includesSub (t m : String) (h : includesSub t m = false) :
    ¬ ∃ a b, t.data = a ++ m.data ++ b := by
  intro hocc
  have hs := (findSub_isSome_iff t.data m.data).mpr hocc
  rw [includesSub] at h
  rw [h] at hs
  exact Bool.noConfusion hs

theorem findSub_append_marker (pre rest tail : List Char) (c : Char) (hc : c ∉ pre) :
    findSub (pre ++ (c :: tail) ++ rest) (c :: tail) = some pre.length := by
  induction pre with
  | nil =>
    show findSub (c :: (tail ++ rest)) (c :: tail) = some 0
    rw [findSub, if_pos]
    simpa using listStartsWith_self_append (c :: tail) rest
  | cons d pre' ih =>
    have hd : d ≠ c := fun he => hc (by rw [he]; exact List.mem_cons_self _ _)
    have hc' : c ∉ pre' := fun hm => hc (List.mem_cons_of_mem _ hm)
    show findSub (d :: (pre' ++ (c :: tail) ++ rest)) (c :: tail) = some (pre'.length + 1)
    rw [findSub, if_neg (by simp [listStartsWith, hd]), ih hc']
    rfl

theorem expandDollar_no_dollar (bef mtd aft : List Char) (r : List Char) (h : '$' ∉ r) :
    expandDollar bef mtd aft r = r := by
  induction r with
  | nil => rfl
  | cons c rest ih =>
    have hcne : c ≠ '$' := fun he => h (by rw [he]; exact List.mem_cons_self _ _)
    have hrest : '$' ∉ rest := fun hm => h (List.mem_cons_of_mem _ hm)
    rw [expandDollar.eq_def]
    dsimp only
    rw [if_neg (by simp [hcne]), ih hrest]

theorem jsReplace_first (m v : String) (c : Char) (tail pre rest : List Char)
    (hm : m.data = c :: tail) (hc : c ∉ pre) (hv : '$' ∉ v.data) :
    jsReplace (String.mk (pre ++ m.data ++ rest)) m v = String.mk (pre ++ v.data ++ rest) := by
  have hfind : findSub (pre ++ m.data ++ rest) m.data = some pre.length := by
    rw [hm]; exact findSub_append_marker pre rest tail c hc
  rw [jsReplace]
  simp only [hfind]
  have htake : (pre ++ m.data ++ rest).take pre.length = pre := by
    rw [List.append_assoc]; exact List.take_left pre (m.data ++ rest)
  have hdrop : (pre ++ m.data ++ rest).drop (pre.length + m.data.length) = rest := by
    rw [show pre.length + m.data.length = (pre ++ m.data).length from (List.length_append _ _).symm]
    exact List.drop_left (pre ++ m.data) rest
  rw [htake, hdrop, expandDollar_no_dollar _ _ _ _ hv]

theorem jsReplace_no_occurrence (t m v : String) (h : ¬ ∃ a b, t.data = a ++ m.data ++ b) :
    jsReplace t m v = t := by
  have hnone : findSub t.data m.data = none := by
    cases heq : findSub t.data m.data with
    | none => rfl
    | some i =>
      exact absurd ((findSub_isSome_iff t.data m.data).mp (by rw [heq]; rfl)) h
  rw [jsReplace, hnone]

theorem findSub_singleton_get {l : List Char} {c : Char} {i : Nat}
    (h : findSub l [c] = some i) : l.get? i = some c := by
  induction l generalizing i with
  | nil =>
    rw [findSub] at h
    rw [if_neg (by simp [listStartsWith])] at h
    exact Option.noConfusion h
  | cons d t ih =>
    rw [findSub] at h
    by_cases hs : listStartsWith (d :: t) [c] = true
    · rw [if_pos hs] at h
      have hd : d = c := by
        simp only [listStartsWith, Bool.and_eq_true, beq_iff_eq] at hs
        exact hs.1
      cases h
      simp [List.get?, hd]
    · rw [if_neg hs] at h
      cases heq : findSub t [c] with
      | none => rw [heq] at h; exact Option.noConfusion h
      | some n =>
        rw [heq, Option.map_some'] at h
        have hin : i = n + 1 := ((Option.some.injEq _ _).mp h).symm
        subst hin
        simpa [List.get?] using ih heq

theorem lastIdxOf_get {l : List Char} {c : Char} {j : Nat}
    (h : lastIdxOf l c = some j) : l.get? j = some c := by
  rw [lastIdxOf] at h
  cases heq : findSub l.reverse [c] with
  | none => rw [heq] at h; exact Option.noConfusion h
  | some i =>
    rw [heq] at h
    have hj : j = l.length - 1 - i := ((Option.some.injEq _ _).mp h).symm
    have hget := findSub_singleton_get heq
    have hi : i < l.length := by
      have hlt := (List.get?_eq_some.mp hget).fst
      simpa using hlt
    rw [hj, ← List.get?_reverse hi]
    exact hget

theorem jsonSpan_some_braces {s t : String} (h : jsonSpan s = some t) :
    ∃ i j, i < j ∧ s.data.get? i = some '\x7b' ∧ s.data.get? j = some '\x7d' := by
  rw [jsonSpan] at h
  cases h1 : findSub s.data ['\x7b'] with
  | none => rw [h1] at h; exact Option.noConfusion h
  | some i =>
    cases h2 : lastIdxOf s.data '\x7d' with
    | none => rw [h1, h2] at h; exact Option.noConfusion h
    | some j =>
      rw [h1, h2] at h
      dsimp only at h
      by_cases hij : i < j
      · exact ⟨i, j, hij, findSub_singleton_get h1, lastIdxOf_get h2⟩
      · rw [if_neg hij] at h; exact Option.noConfusion h

/-! ## Reduction of the handlers on inputs passing validation -/

theorem analyzeResume_valid (rt tmpl : String) (provider : String → ProviderOutcome) (db : Bool)
    (hrt : rt ≠ "") (htmpl : tmpl ≠ "") (h50 : ¬ (jsTrim rt).length < 50) :
    analyzeResume (some rt) (some tmpl) provider db
      = (match callAI (provider (renderAnalyzePrompt tmpl rt)) with
         | ProviderOutcome.thrown m =>
           (ApiResponse.failure 500 (Json.str (if m != "" then m else fallbackAnalyzeMsg)), true)
         | ProviderOutcome.reply a => (analyzeRespond a db, true)) := by
  have h1 : (rt != "") = true := bne_iff_ne.mpr hrt
  have h2 : (tmpl != "") = true := bne_iff_ne.mpr htmpl
  rw [analyzeResume]
  rw [if_neg (by simp [truthyStr, h1, h2])]
  rw [if_neg (by simpa using h50)]
  rfl

theorem matchJob_valid (rt jd tmpl : String) (provider : String → ProviderOutcome) (db : Bool)
    (hrt : rt ≠ "") (hjd : jd ≠ "") (htmpl : tmpl ≠ "")
    (h50r : ¬ (jsTrim rt).length < 50) (h50j : ¬ (jsTrim jd).length < 50) :
    matchJob (some rt) (some jd) (some tmpl) provider db
      = (match callAI (provider (renderMatchPrompt tmpl rt jd)) with
         | ProviderOutcome.thrown m =>
           (ApiResponse.failure 500 (Json.str (if m != "" then m else fallbackMatchMsg)), true)
         | ProviderOutcome.reply a => (matchRespond a db, true)) := by
  have h1 : (rt != "") = true := bne_iff_ne.mpr hrt
  have h2 : (jd != "") = true := bne_iff_ne.mpr hjd
  have h3 : (tmpl != "") = true := bne_iff_ne.mpr htmpl
  rw [matchJob]
  rw [if_neg (by simp [truthyStr, h1, h2, h3])]
  rw [if_neg (by simpa using h50r)]
  rw [if_neg (by simpa using h50j)]
  rfl

/-! ## Concrete inputs used by the claims -/

/-- A 50-character resume text, the minimum passing validation. -/
def longText : String := "aaaaaaaaaaaaaaaaaaaaaaaaaaaaaaaaaaaaaaaaaaaaaaaaaa"

/-- A provider reply whose extracted object carries both an error field
and a truthy matchPercentage. -/
def errorAndPercentageReply : String := "\x7b\"matchPercentage\":80,\"error\":\"bad\"\x7d"

/-- The object extracted from errorAndPercentageReply. -/
def errorAndPercentageData : Json :=
  Json.obj [("matchPercentage", Json.num 80), ("error", Json.str "bad")]

/-- The provider reply of the specification's extraction test. -/
def testReply : String :=
  "Here is the result:\n\x7b\"overallScore\":82,\"strengths\":[\"clear formatting\"]\x7d"

/-- The brace-to-brace span of testReply. -/
def testSpan : String :=
  "\x7b\"overallScore\":82,\"strengths\":[\"clear formatting\"]\x7d"

/-- The object extracted from testReply. -/
def testData : Json :=
  Json.obj [("overallScore", Json.num 82), ("strengths", Json.arr [Json.str "clear formatting"])]

/-- A reply whose object carries overallScore zero and no error field. -/
def zeroScoreReply : String := "\x7b\"overallScore\":0\x7d"

/-- A reply whose object carries matchPercentage zero. -/
def zeroMatchReply : String := "\x7b\"matchPercentage\":0\x7d"

/-- A reply whose object carries both discriminating fields truthily. -/
def bothFieldsReply : String := "\x7b\"overallScore\":82,\"matchPercentage\":80\x7d"

/-- The object extracted from bothFieldsReply. -/
def bothFieldsData : Json :=
  Json.obj [("overallScore", Json.num 82), ("matchPercentage", Json.num 80)]

/-! ## Claims -/

/-- Claim C10: every health request yields status ok and the configured
provider name regardless of database connectivity; the database field is
connected exactly when the connection readyState equals 1 and
disconnected otherwise, and a disconnected database never changes the
rest of the response. -/
theorem healthCheck_always_ok (p : String) (r : Nat) :
    (healthCheck p r).status = "ok"
    ∧ (healthCheck p r).provider = p
    ∧ (healthCheck p r).message = "Resume Optimizer API is running"
    ∧ ((healthCheck p r).database = "connected" ↔ r = 1)
    ∧ ((healthCheck p r).database = "disconnected" ↔ r ≠ 1) := by
  by_cases h : r = 1 <;> simp [healthCheck, h]

/-- Claim C9: an extracted object whose discriminating field is present
but equal to 0 is treated as invalid by the truthiness test: the analyze
endpoint answers the server fault for overallScore 0 without an error
field, and the match endpoint for matchPercentage 0, even though both
objects parse with the field present. -/
theorem zero_discriminator_server_fault :
    (analyzeResume (some longText) (some "t")
        (fun _ => ProviderOutcome.reply zeroScoreReply) false).1
      = ApiResponse.failure 500 (Json.str msgInvalidAnalysis)
    ∧ (matchJob (some longText) (some longText) (some "t")
        (fun _ => ProviderOutcome.reply zeroMatchReply) false).1
      = ApiResponse.failure 500 (Json.str msgInvalidMatch)
    ∧ parseJson zeroScoreReply = some (Json.obj [("overallScore", Json.num 0)])
    ∧ parseJson zeroMatchReply = some (Json.obj [("matchPercentage", Json.num 0)]) :=
  ⟨rfl, rfl, rfl, rfl⟩

/-- Claim C8: an analyze request with an absent or empty prompt is
rejected with the 400 missing-fields message before any provider call,
whatever the resume text. -/
theorem analyze_missing_prompt_rejected (rt pm : Option String)
    (provider : String → ProviderOutcome) (db : Bool)
    (h : pm = none ∨ pm = some "") :
    analyzeResume rt pm provider db
      = (ApiResponse.failure 400 (Json.str msgMissingAnalyze), false) := by
  have hp : truthyStr pm = false := by
    rcases h with rfl | rfl <;> rfl
  rw [analyzeResume, if_pos (by simp [hp])]

/-- Witness for C8 at a concrete request. -/
theorem analyze_missing_prompt_rejected_witness :
    analyzeResume (some longText) none (fun _ => ProviderOutcome.reply testReply) false
      = (ApiResponse.failure 400 (Json.str msgMissingAnalyze), false) :=
  analyze_missing_prompt_rejected (some longText) none
    (fun _ => ProviderOutcome.reply testReply) false (Or.inl rfl)

/-- Claim C7: a provider-thrown error whose message holds the substring
"API key" leaves callAI as the re-classified invalid-credential error;
every other thrown error propagates unchanged, and replies pass through
untouched. -/
theorem callAI_reclassifies_api_key_errors (msg : String) :
    ((∃ a b, msg.data = a ++ ("API key").data ++ b) →
        callAI (ProviderOutcome.thrown msg) = ProviderOutcome.thrown invalidKeyMessage)
    ∧ ((¬ ∃ a b, msg.data = a ++ ("API key").data ++ b) →
        callAI (ProviderOutcome.thrown msg) = ProviderOutcome.thrown msg)
    ∧ (∀ t, callAI (ProviderOutcome.reply t) = ProviderOutcome.reply t) := by
  refine ⟨?_, ?_, fun t => rfl⟩
  · intro h
    have hinc : includesSub msg "API key" = true := by
      rw [includesSub]; exact (findSub_isSome_iff _ _).mpr h
    have hne : msg ≠ "" := by
      intro he
      rw [he] at hinc
      exact absurd hinc (by decide)
    show (if (msg != "" && includesSub msg "API key") = true
        then ProviderOutcome.thrown invalidKeyMessage else ProviderOutcome.thrown msg)
      = ProviderOutcome.thrown invalidKeyMessage
    rw [if_pos (by simp [hinc, bne_iff_ne.mpr hne])]
  · intro h
    have hinc : includesSub msg "API key" = false := by
      cases hcase : includesSub msg "API key" with
      | false => rfl
      | true =>
        rw [includesSub] at hcase
        exact absurd ((findSub_isSome_iff _ _).mp hcase) h
    show (if (msg != "" && includesSub msg "API key") = true
        then ProviderOutcome.thrown invalidKeyMessage else ProviderOutcome.thrown msg)
      = ProviderOutcome.thrown msg
    rw [if_neg (by simp [hinc])]

/-- Witness for C7 at concrete error messages. -/
theorem callAI_reclassifies_api_key_errors_witness :
    callAI (ProviderOutcome.thrown "bad API key here") = ProviderOutcome.thrown invalidKeyMessage
    ∧ callAI (ProviderOutcome.thrown "quota exceeded") = ProviderOutcome.thrown "quota exceeded" :=
  ⟨(callAI_reclassifies_api_key_errors "bad API key here").1
      ⟨("bad ").data, (" here").data, by decide⟩,
   (callAI_reclassifies_api_key_errors "quota exceeded").2.1
      (not_occurs_of_includesSub _ _ (by decide))⟩

/-- Counterexample to claim C1: a match run whose extracted object holds
both an error field and a truthy matchPercentage answers success with
the full object, not the claimed 400 with the error value. -/
theorem matchJob_error_with_percentage_succeeds :
    (matchJob (some longText) (some longText) (some "t")
        (fun _ => ProviderOutcome.reply errorAndPercentageReply) false).1
      = ApiResponse.success errorAndPercentageData
    ∧ ∀ e : Json, (matchJob (some longText) (some longText) (some "t")
        (fun _ => ProviderOutcome.reply errorAndPercentageReply) false).1
      ≠ ApiResponse.failure 400 e := by
  constructor
  · rfl
  · intro e h
    rw [show (matchJob (some longText) (some longText) (some "t")
        (fun _ => ProviderOutcome.reply errorAndPercentageReply) false).1
      = ApiResponse.success errorAndPercentageData from rfl] at h
    exact ApiResponse.noConfusion h

theorem truthyField_of_none {data : Json} {k : String} (h : getField data k = none) :
    truthyField data k = false := by
  rw [truthyField, h]

theorem analyzeRespond_parsed {reply span : String} {data : Json} (db : Bool)
    (hspan : jsonSpan reply = some span) (hparse : parseJson span = some data)
    (herr : truthyField data "error" = false) :
    analyzeRespond reply db
      = (if truthyField data "overallScore" then ApiResponse.success data
         else ApiResponse.failure 500 (Json.str msgInvalidAnalysis)) := by
  cases hb : truthyField data "overallScore" <;> cases db <;>
    simp [analyzeRespond, hspan, hparse, hb, herr, dbSave]

theorem matchRespond_parsed {reply span : String} {data : Json} (db : Bool)
    (hspan : jsonSpan reply = some span) (hparse : parseJson span = some data) :
    matchRespond reply db
      = (if truthyField data "matchPercentage" then ApiResponse.success data
         else ApiResponse.failure 500 (Json.str msgInvalidMatch)) := by
  cases hb : truthyField data "matchPercentage" <;> cases db <;>
    simp [matchRespond, hspan, hparse, hb, dbSave]

/-- Amended claim C1: the match endpoint never inspects the error field
of the extracted object.  On a run reaching extraction whose object
holds an error field, it answers success with the full object when
matchPercentage is truthy, and the 500 invalid-format server fault when
it is not; in neither case is the error value surfaced as a 400. -/
theorem matchJob_ignores_error_field
    (rt jd tmpl reply span : String) (data e : Json)
    (provider : String → ProviderOutcome) (db : Bool)
    (hrt : rt ≠ "") (hjd : jd ≠ "") (htmpl : tmpl ≠ "")
    (h50r : ¬ (jsTrim rt).length < 50) (h50j : ¬ (jsTrim jd).length < 50)
    (hprov : provider (renderMatchPrompt tmpl rt jd) = ProviderOutcome.reply reply)
    (hspan : jsonSpan reply = some span) (hparse : parseJson span = some data)
    (herr : getField data "error" = some e) :
    (matchJob (some rt) (some jd) (some tmpl) provider db).1
      = (if truthyField data "matchPercentage" then ApiResponse.success data
         else ApiResponse.failure 500 (Json.str msgInvalidMatch)) := by
  rw [matchJob_valid rt jd tmpl provider db hrt hjd htmpl h50r h50j, hprov]
  show matchRespond reply db = _
  exact matchRespond_parsed db hspan hparse

/-- Witness for the amended C1 at a concrete run. -/
theorem matchJob_ignores_error_field_witness :
    (matchJob (some longText) (some longText) (some "t")
        (fun _ => ProviderOutcome.reply errorAndPercentageReply) false).1
      = (if truthyField errorAndPercentageData "matchPercentage"
         then ApiResponse.success errorAndPercentageData
         else ApiResponse.failure 500 (Json.str msgInvalidMatch)) :=
  matchJob_ignores_error_field longText longText "t" errorAndPercentageReply
    errorAndPercentageReply errorAndPercentageData (Json.str "bad")
    (fun _ => ProviderOutcome.reply errorAndPercentageReply) false
    (by decide) (by decide) (by decide) (by decide) (by decide)
    rfl rfl rfl rfl

/-- Counterexample to claim C3: an object whose discriminating field is
present with value 0 still fails the validation of both endpoints, so
presence alone does not make validation succeed. -/
theorem zero_overallScore_fails_validation :
    getField (Json.obj [("overallScore", Json.num 0)]) "overallScore" = some (Json.num 0)
    ∧ analyzeRespond zeroScoreReply false
        = ApiResponse.failure 500 (Json.str msgInvalidAnalysis)
    ∧ getField (Json.obj [("matchPercentage", Json.num 0)]) "matchPercentage" = some (Json.num 0)
    ∧ matchRespond zeroMatchReply false
        = ApiResponse.failure 500 (Json.str msgInvalidMatch) :=
  ⟨rfl, rfl, rfl, rfl⟩

/-- Amended claim C3: for a parsed object without an error field, the
required-field validation fails (as the 500 invalid-format server
fault) exactly when the discriminating field is absent or falsy (0,
empty string, false or null); it succeeds exactly when the field's
value is truthy. -/
theorem validation_fails_iff_discriminator_falsy
    (areply aspan mreply mspan : String) (adata mdata : Json) (db : Bool)
    (haspan : jsonSpan areply = some aspan) (haparse : parseJson aspan = some adata)
    (haerr : getField adata "error" = none)
    (hmspan : jsonSpan mreply = some mspan) (hmparse : parseJson mspan = some mdata)
    (hmerr : getField mdata "error" = none) :
    (analyzeRespond areply db = ApiResponse.failure 500 (Json.str msgInvalidAnalysis)
       ↔ truthyField adata "overallScore" = false)
    ∧ (matchRespond mreply db = ApiResponse.failure 500 (Json.str msgInvalidMatch)
       ↔ truthyField mdata "matchPercentage" = false) := by
  constructor
  · rw [analyzeRespond_parsed db haspan haparse (truthyField_of_none haerr)]
    cases hb : truthyField adata "overallScore" <;> simp
  · rw [matchRespond_parsed db hmspan hmparse]
    cases hb : truthyField mdata "matchPercentage" <;> simp

/-- Witness for the amended C3 at concrete parsed objects. -/
theorem validation_fails_iff_discriminator_falsy_witness :
    (analyzeRespond zeroScoreReply false = ApiResponse.failure 500 (Json.str msgInvalidAnalysis)
       ↔ truthyField (Json.obj [("overallScore", Json.num 0)]) "overallScore" = false)
    ∧ (matchRespond zeroMatchReply false = ApiResponse.failure 500 (Json.str msgInvalidMatch)
       ↔ truthyField (Json.obj [("matchPercentage", Json.num 0)]) "matchPercentage" = false) :=
  validation_fails_iff_discriminator_falsy zeroScoreReply zeroScoreReply
    zeroMatchReply zeroMatchReply
    (Json.obj [("overallScore", Json.num 0)]) (Json.obj [("matchPercentage", Json.num 0)]) false
    rfl rfl rfl rfl rfl rfl

/-- A template carrying the analyze marker twice. -/
def doubleMarkerTemplate : String :=
  "pre \x7b\x7bDOCUMENT_TEXT\x7d\x7d mid \x7b\x7bDOCUMENT_TEXT\x7d\x7d post"

/-- Counterexample to claim C2: rendering a template holding the marker
twice replaces only the first occurrence, so the result keeps the second
marker literally and differs from the fully substituted text. -/
theorem render_second_marker_occurrence_kept :
    renderAnalyzePrompt doubleMarkerTemplate "X"
      = "pre X mid \x7b\x7bDOCUMENT_TEXT\x7d\x7d post"
    ∧ renderAnalyzePrompt doubleMarkerTemplate "X" ≠ "pre X mid X post" := by
  constructor
  · rfl
  · intro h
    rw [show renderAnalyzePrompt doubleMarkerTemplate "X"
        = "pre X mid \x7b\x7bDOCUMENT_TEXT\x7d\x7d post" from rfl] at h
    exact absurd h (by decide)

/-- Amended claim C2: prompt rendering replaces only the first
occurrence of each known marker (occurrences in the replacement value
set aside via dollar-free values, since the replacement string
interprets dollar patterns), and returns the template unchanged when the
marker does not occur. -/
theorem render_replaces_first_occurrence_only :
    (∀ (pre rest : List Char) (v : String), '\x7b' ∉ pre → '$' ∉ v.data →
        renderAnalyzePrompt (String.mk (pre ++ documentMarker.data ++ rest)) v
          = String.mk (pre ++ v.data ++ rest))
    ∧ (∀ (tmpl v : String), (¬ ∃ a b, tmpl.data = a ++ documentMarker.data ++ b) →
        renderAnalyzePrompt tmpl v = tmpl)
    ∧ (∀ (tmpl rv jv : String),
        (¬ ∃ a b, tmpl.data = a ++ resumeMarker.data ++ b) →
        (¬ ∃ a b, tmpl.data = a ++ jobMarker.data ++ b) →
        renderMatchPrompt tmpl rv jv = tmpl)
    ∧ (∀ (pre rest : List Char) (rv jv : String), '\x7b' ∉ pre → '$' ∉ rv.data →
        (¬ ∃ a b, pre ++ rv.data ++ rest = a ++ jobMarker.data ++ b) →
        renderMatchPrompt (String.mk (pre ++ resumeMarker.data ++ rest)) rv jv
          = String.mk (pre ++ rv.data ++ rest)) := by
  refine ⟨?_, ?_, ?_, ?_⟩
  · intro pre rest v hpre hv
    exact jsReplace_first documentMarker v '\x7b' ("\x7bDOCUMENT_TEXT\x7d\x7d").data
      pre rest rfl hpre hv
  · intro tmpl v h
    exact jsReplace_no_occurrence tmpl documentMarker v h
  · intro tmpl rv jv h1 h2
    rw [renderMatchPrompt, jsReplace_no_occurrence tmpl resumeMarker rv h1,
      jsReplace_no_occurrence tmpl jobMarker jv h2]
  · intro pre rest rv jv hpre hrv hnj
    rw [renderMatchPrompt,
      jsReplace_first resumeMarker rv '\x7b' ("\x7bRESUME_TEXT\x7d\x7d").data
        pre rest rfl hpre hrv,
      jsReplace_no_occurrence _ jobMarker jv hnj]

/-- Witness for the amended C2 at concrete templates. -/
theorem render_replaces_first_occurrence_only_witness :
    renderAnalyzePrompt (String.mk (("A ").data ++ documentMarker.data ++ (" B").data)) "X"
      = String.mk (("A ").data ++ ("X").data ++ (" B").data)
    ∧ renderAnalyzePrompt "no marker here" "X" = "no marker here" :=
  ⟨render_replaces_first_occurrence_only.1 ("A ").data (" B").data "X"
      (by decide) (by decide),
   render_replaces_first_occurrence_only.2.1 "no marker here" "X"
      (not_occurs_of_includesSub _ _ (by decide))⟩

/-- Claim C4: a request whose resume text is absent or under 50 trimmed
characters is rejected by both endpoints with a 400 client fault and no
provider call, and likewise a match request whose job description is
absent or under 50 trimmed characters, whatever the other fields. -/
theorem short_or_missing_input_rejected_before_provider
    (rt jd pm : Option String) (provider : String → ProviderOutcome) (db : Bool) :
    ((rt = none ∨ ∃ s, rt = some s ∧ (jsTrim s).length < 50) →
        (∃ m, analyzeResume rt pm provider db = (ApiResponse.failure 400 (Json.str m), false))
        ∧ (∃ m, matchJob rt jd pm provider db = (ApiResponse.failure 400 (Json.str m), false)))
    ∧ ((jd = none ∨ ∃ s, jd = some s ∧ (jsTrim s).length < 50) →
        ∃ m, matchJob rt jd pm provider db = (ApiResponse.failure 400 (Json.str m), false)) := by
  constructor
  · intro h
    constructor
    · by_cases hc : (!truthyStr rt || !truthyStr pm) = true
      · exact ⟨msgMissingAnalyze, by rw [analyzeResume, if_pos hc]⟩
      · have hrt : truthyStr rt = true := by
          cases hx : truthyStr rt with
          | false => exact absurd (by simp [hx]) hc
          | true => rfl
        rcases h with rfl | ⟨s, rfl, hs⟩
        · exact absurd hrt (by simp [truthyStr])
        · exact ⟨msgShortAnalyze, by
            rw [analyzeResume, if_neg hc]
            simp only [Option.getD_some]
            rw [if_pos hs]⟩
    · by_cases hc : (!truthyStr rt || !truthyStr jd || !truthyStr pm) = true
      · exact ⟨msgMissingMatch, by rw [matchJob, if_pos hc]⟩
      · have hrt : truthyStr rt = true := by
          cases hx : truthyStr rt with
          | false => exact absurd (by simp [hx]) hc
          | true => rfl
        rcases h with rfl | ⟨s, rfl, hs⟩
        · exact absurd hrt (by simp [truthyStr])
        · exact ⟨msgShortResumeMatch, by
            rw [matchJob, if_neg hc]
            simp only [Option.getD_some]
            rw [if_pos hs]⟩
  · intro h
    by_cases hc : (!truthyStr rt || !truthyStr jd || !truthyStr pm) = true
    · exact ⟨msgMissingMatch, by rw [matchJob, if_pos hc]⟩
    · have hjd : truthyStr jd = true := by
        cases hx : truthyStr jd with
        | false => exact absurd (by simp [hx]) hc
        | true => rfl
      rcases h with rfl | ⟨s, rfl, hs⟩
      · exact absurd hjd (by simp [truthyStr])
      · by_cases rc : (jsTrim (rt.getD "")).length < 50
        · exact ⟨msgShortResumeMatch, by rw [matchJob, if_neg hc, if_pos rc]⟩
        · exact ⟨msgShortJobMatch, by
            rw [matchJob, if_neg hc, if_neg rc]
            simp only [Option.getD_some]
            rw [if_pos hs]⟩

/-- Witness for C4 at concrete short inputs. -/
theorem short_or_missing_input_rejected_before_provider_witness :
    (∃ m, analyzeResume (some "tiny") (some "t")
        (fun _ => ProviderOutcome.reply testReply) false
      = (ApiResponse.failure 400 (Json.str m), false))
    ∧ (∃ m, matchJob (some "tiny") (some longText) (some "t")
        (fun _ => ProviderOutcome.reply testReply) false
      = (ApiResponse.failure 400 (Json.str m), false))
    ∧ (∃ m, matchJob (some longText) (some "tiny") (some "t")
        (fun _ => ProviderOutcome.reply testReply) false
      = (ApiResponse.failure 400 (Json.str m), false)) :=
  ⟨((short_or_missing_input_rejected_before_provider (some "tiny") (some longText) (some "t")
      (fun _ => ProviderOutcome.reply testReply) false).1
      (Or.inr ⟨"tiny", rfl, by decide⟩)).1,
   ((short_or_missing_input_rejected_before_provider (some "tiny") (some longText) (some "t")
      (fun _ => ProviderOutcome.reply testReply) false).1
      (Or.inr ⟨"tiny", rfl, by decide⟩)).2,
   (short_or_missing_input_rejected_before_provider (some longText) (some "tiny") (some "t")
      (fun _ => ProviderOutcome.reply testReply) false).2
      (Or.inr ⟨"tiny", rfl, by decide⟩)⟩

theorem no_brace_pair_of_no_open (reply : String) (h : '\x7b' ∉ reply.data) :
    ¬ ∃ i j, i < j ∧ reply.data.get? i = some '\x7b' ∧ reply.data.get? j = some '\x7d' := by
  rintro ⟨i, j, hij, hi, hj⟩
  exact h (List.get?_mem hi)

/-- Claim C5: extraction takes the span from the first open brace to the
last close brace and parses it as JSON — on the specification's test
reply this yields overallScore 82 despite the surrounding prose — and a
reply without such a span makes both endpoints answer the 500
no-JSON-found server fault. -/
theorem extraction_first_to_last_brace_span :
    (∀ (reply : String) (db : Bool),
        (¬ ∃ i j, i < j ∧ reply.data.get? i = some '\x7b'
            ∧ reply.data.get? j = some '\x7d') →
        analyzeRespond reply db = ApiResponse.failure 500 (Json.str msgNoJson)
        ∧ matchRespond reply db = ApiResponse.failure 500 (Json.str msgNoJson)
        ∧ (analyzeResume (some longText) (some "t")
            (fun _ => ProviderOutcome.reply reply) db).1
          = ApiResponse.failure 500 (Json.str msgNoJson))
    ∧ jsonSpan testReply = some testSpan
    ∧ parseJson testSpan = some testData
    ∧ getField testData "overallScore" = some (Json.num 82)
    ∧ (analyzeResume (some longText) (some "t")
        (fun _ => ProviderOutcome.reply testReply) false).1
      = ApiResponse.success testData := by
  refine ⟨?_, rfl, rfl, rfl, rfl⟩
  intro reply db h
  have hnone : jsonSpan reply = none := by
    cases hs : jsonSpan reply with
    | none => rfl
    | some t => exact absurd (jsonSpan_some_braces hs) h
  refine ⟨?_, ?_, ?_⟩
  · rw [analyzeRespond, hnone]
  · rw [matchRespond, hnone]
  · rw [analyzeResume_valid longText "t" (fun _ => ProviderOutcome.reply reply) db
      (by decide) (by decide) (by decide)]
    show analyzeRespond reply db = _
    rw [analyzeRespond, hnone]

/-- Witness for C5 at a concrete brace-free reply. -/
theorem extraction_first_to_last_brace_span_witness :
    analyzeRespond "The model returned prose only." false
      = ApiResponse.failure 500 (Json.str msgNoJson)
    ∧ matchRespond "The model returned prose only." false
      = ApiResponse.failure 500 (Json.str msgNoJson)
    ∧ (analyzeResume (some longText) (some "t")
        (fun _ => ProviderOutcome.reply "The model returned prose only.") false).1
      = ApiResponse.failure 500 (Json.str msgNoJson) :=
  extraction_first_to_last_brace_span.1 "The model returned prose only." false
    (no_brace_pair_of_no_open _ (by decide))

/-- Claim C6: on a run that reaches recording with a valid extracted
result, a throwing database save is caught and discarded: for either
save outcome the response of both endpoints is still success with the
extracted object. -/
theorem db_failure_does_not_change_response
    (rt jd tmpl reply span : String) (data : Json)
    (hrt : rt ≠ "") (hjd : jd ≠ "") (htmpl : tmpl ≠ "")
    (h50r : ¬ (jsTrim rt).length < 50) (h50j : ¬ (jsTrim jd).length < 50)
    (hspan : jsonSpan reply = some span) (hparse : parseJson span = some data) :
    (truthyField data "overallScore" = true → truthyField data "error" = false →
        ∀ db, (analyzeResume (some rt) (some tmpl)
            (fun _ => ProviderOutcome.reply reply) db).1
          = ApiResponse.success data)
    ∧ (truthyField data "matchPercentage" = true →
        ∀ db, (matchJob (some rt) (some jd) (some tmpl)
            (fun _ => ProviderOutcome.reply reply) db).1
          = ApiResponse.success data) := by
  constructor
  · intro hos herr db
    rw [analyzeResume_valid rt tmpl (fun _ => ProviderOutcome.reply reply) db hrt htmpl h50r]
    show analyzeRespond reply db = _
    rw [analyzeRespond_parsed db hspan hparse herr, if_pos hos]
  · intro hmp db
    rw [matchJob_valid rt jd tmpl (fun _ => ProviderOutcome.reply reply) db
      hrt hjd htmpl h50r h50j]
    show matchRespond reply db = _
    rw [matchRespond_parsed db hspan hparse, if_pos hmp]

/-- Witness for C6: a failing save leaves both concrete runs successful. -/
theorem db_failure_does_not_change_response_witness :
    (analyzeResume (some longText) (some "t")
        (fun _ => ProviderOutcome.reply bothFieldsReply) true).1
      = ApiResponse.success bothFieldsData
    ∧ (matchJob (some longText) (some longText) (some "t")
        (fun _ => ProviderOutcome.reply bothFieldsReply) true).1
      = ApiResponse.success bothFieldsData :=
  ⟨(db_failure_does_not_change_response longText longText "t" bothFieldsReply bothFieldsReply
      bothFieldsData (by decide) (by decide) (by decide) (by decide) (by decide) rfl rfl).1
      rfl rfl true,
   (db_failure_does_not_change_response longText longText "t" bothFieldsReply bothFieldsReply
      bothFieldsData (by decide) (by decide) (by decide) (by decide) (by decide) rfl rfl).2
      rfl true⟩
